import Mathlib

/-!
Verification development for the Reddit keyword alert monitor
(`reddit_monitor.py` / `main.py`).

The Python program is embedded shallowly:

* A CPython `set` of strings is modelled by its *iteration order*: a
  `List String` holding the distinct members in the order `list(s)` /
  `", ".join(s)` would produce.  CPython's iteration order for string
  sets is implementation defined (it depends on the per-process hash
  seed), so theorems that depend on the order quantify over admissible
  orders, while the deterministic pipeline model fixes one admissible
  choice (first-insertion order).
* The file system is modelled by `Option (Except Unit (List String))`:
  `none` = the file does not exist, `some (.error ())` = the file exists
  but reading/parsing raises, `some (.ok l)` = `json.load` yields `l`.
* Network fetches are modelled by an oracle
  `Nat → Option String → PageResult` giving, for each call index, the
  decoded page (or a raised exception) for the cursor that was passed.
* `datetime.fromtimestamp(t).strftime('%Y-%m-%d %H:%M:%S')` formats `t`
  in the host's local timezone; the model fixes the host timezone to
  UTC (a consistent choice) and implements the civil-from-days
  conversion for nonnegative timestamps in `datetime`'s range.
-/

/-- One feed entry, as `process_items` reads it out of `item["data"]`.
`item_data.get("id")` is modelled as always present (every Reddit item
carries an id); `link_title` keeps its optionality because
`item_data.get("link_title", default)` branches on its presence. -/
structure RawItem where
  id : String
  title : String
  selftext : String
  body : String
  link_title : Option String
  subreddit : String
  permalink : String
  created_utc : Nat
  deriving DecidableEq, Repr

/-- The dictionary appended to `matches` in `process_items`
(lines 162-169 of `reddit_monitor.py`). -/
structure MatchRecord where
  keywords : String
  title : String
  url : String
  subreddit : String
  created : String
  type : String
  deriving DecidableEq, Repr

/-- Result of one `requests.get` + JSON decode in `fetch_multiple_batches`:
either the item list and the `after` cursor, or a raised exception. -/
abbrev PageResult := Except Unit (List RawItem × Option String)

deriving instance DecidableEq for Except

/-- Python truthiness of the `after` cursor (`if after:` / `if not after`):
`None` and the empty string are falsy. -/
def truthyCursor : Option String → Bool
  | none => false
  | some s => !s.isEmpty

/-- `str.lower()`, modelled character-wise (faithful on ASCII, which is
all the claims exercise). -/
def pyLower (s : String) : String := String.mk (s.data.map Char.toLower)

/-- Does `l` begin with the segment `p`? -/
def listStarts : List Char → List Char → Bool
  | _, [] => true
  | [], _ :: _ => false
  | a :: l, b :: p => a == b && listStarts l p

/-- Does `p` occur as a contiguous segment of `l`? -/
def listHas : List Char → List Char → Bool
  | [], p => p.isEmpty
  | a :: l, p => listStarts (a :: l) p || listHas l p

/-- Python's substring test `needle in haystack`. -/
def substrIn (needle haystack : String) : Bool :=
  listHas haystack.toList needle.toList

/-- `content = f"{title} {body}".lower()` (line 152): title and body are
joined with a single space, then lowercased. -/
def itemContent (title body : String) : String :=
  pyLower (title ++ " " ++ body)

/-- Modelled from the spec: the combined searchable text as the spec's
words describe it, "title concatenated with body, case-folded" — i.e.
without the space separator the source inserts.  Used only to compare
the source's behaviour against the spec's wording. -/
def specContent (title body : String) : String :=
  pyLower (title ++ body)

/-- Lines 155-158: the subset of keywords whose lowercased form occurs in
`content`.  The source collects them into a `set`; the model keeps the
keyword-list (first-insertion) order, which is membership-faithful. -/
def matchedKeywords (keywords : List String) (content : String) : List String :=
  keywords.filter fun kw => substrIn (pyLower kw) content

/-- `", ".join(matched_keywords)` (line 163), applied to whatever
iteration order the set yields. -/
def renderKeywords (kws : List String) : String :=
  String.intercalate ", " kws

/-- `body = item_data.get("selftext", "") if item_type == "post" else
item_data.get("body", "")` (line 141). -/
def bodyOf (itemType : String) (i : RawItem) : String :=
  if itemType = "post" then i.selftext else i.body

/-- Lines 140 and 147-149: the title, with the comment-kind fallback
`item_data.get("link_title", f"Comment: {body[:50]}...")`. -/
def titleOf (itemType : String) (i : RawItem) : String :=
  if itemType = "comment" then
    (i.link_title).getD ("Comment: " ++ (bodyOf itemType i).take 50 ++ "...")
  else i.title

/-- Two zero-padded decimal digits, as `strftime` renders `%m`, `%d`,
`%H`, `%M`, `%S` for values below 100. -/
def twoDigits (n : Nat) : String :=
  String.mk [Nat.digitChar (n / 10 % 10), Nat.digitChar (n % 10)]

/-- Four zero-padded decimal digits, as `strftime` renders `%Y` for
years 1000-9999 (every year reachable from a nonnegative timestamp in
`datetime`'s range). -/
def fourDigits (n : Nat) : String :=
  String.mk [Nat.digitChar (n / 1000 % 10), Nat.digitChar (n / 100 % 10),
    Nat.digitChar (n / 10 % 10), Nat.digitChar (n % 10)]

/-- Gregorian (year, month, day) from a count of days since 1970-01-01
(the standard civil-from-days algorithm, in `Nat` arithmetic: every
subtraction is applied to a dominating term). -/
def civilFromDays (z0 : Nat) : Nat × Nat × Nat :=
  let z := z0 + 719468
  let era := z / 146097
  let doe := z % 146097
  let yoe := (doe - doe / 1460 + doe / 36524 - doe / 146096) / 365
  let y := yoe + era * 400
  let doy := doe - (365 * yoe + yoe / 4 - yoe / 100)
  let mp := (5 * doy + 2) / 153
  let d := doy - (153 * mp + 2) / 5 + 1
  let m := if mp < 10 then mp + 3 else mp - 9
  (if m ≤ 2 then y + 1 else y, m, d)

/-- `datetime.fromtimestamp(t).strftime('%Y-%m-%d %H:%M:%S')` (line 144)
for a nonnegative epoch timestamp, with the host timezone fixed to UTC
(a consistent local/UTC choice). -/
def formatTimestamp (t : Nat) : String :=
  let days := t / 86400
  let secs := t % 86400
  let c := civilFromDays days
  fourDigits c.1 ++ "-" ++ twoDigits c.2.1 ++ "-" ++ twoDigits c.2.2 ++ " " ++
    twoDigits (secs / 3600) ++ ":" ++ twoDigits (secs % 3600 / 60) ++ ":" ++
    twoDigits (secs % 60)

/-- Decides that a string has the shape `YYYY-MM-DD HH:MM:SS`: 19
characters, separators at the fixed positions, digits everywhere else. -/
def patternOk (s : String) : Bool :=
  match s.data with
  | [y1, y2, y3, y4, '-', m1, m2, '-', d1, d2, ' ', h1, h2, ':', n1, n2, ':', s1, s2] =>
    y1.isDigit && y2.isDigit && y3.isDigit && y4.isDigit && m1.isDigit && m2.isDigit &&
    d1.isDigit && d2.isDigit && h1.isDigit && h2.isDigit && n1.isDigit && n2.isDigit &&
    s1.isDigit && s2.isDigit
  | _ => false

/-- `set(l)`: the set built from a decoded JSON list, in one admissible
iteration order (deduplicated; membership-faithful). -/
def pySetOf (l : List String) : List String := l.dedup

/-- `s.add(x)` on a Python set, preserving the model's iteration order:
no-op when present, otherwise the element joins the order. -/
def pyAdd (s : List String) (x : String) : List String :=
  if s.contains x then s else s ++ [x]

/-- `load_seen_items(filename)` (lines 27-32): if the file exists, open
it and `set(json.load(f))` — any read/parse exception propagates; if it
does not exist, return the empty set. -/
def load_seen_items (file : Option (Except Unit (List String))) :
    Except Unit (List String) :=
  match file with
  | some (Except.ok l) => Except.ok (pySetOf l)
  | some (Except.error e) => Except.error e
  | none => Except.ok []

/-- `save_seen_items(seen_items, filename)` (lines 34-40):
`seen_list = list(seen_items)` (the set's iteration order), keep only
the last 5000 entries of that list, and persist them. -/
def save_seen_items (seen_items : List α) : List α :=
  if seen_items.length > 5000 then
    seen_items.drop (seen_items.length - 5000)
  else seen_items

/-- `send_email(matches)` (lines 42-85): returns early on an empty match
list (zero API calls); otherwise issues exactly one API send, whose
failure is caught (`try`/`except`) and turned into a `False` return.
`apiOk` models whether the external send succeeds.  The result is the
Python return value (`None` / `True` / `False`) paired with the number
of API send calls issued. -/
def send_email (ms : List MatchRecord) (apiOk : Bool) :
    Option Bool × Nat :=
  if ms.isEmpty then (none, 0) else (some apiOk, 1)

/-- The pagination loop of `fetch_multiple_batches` (lines 92-120).
`f` is the network oracle: call index and effective cursor in, decoded
page (or raised exception) out.  Returns the accumulated items together
with the log of cursors passed to each call that was issued. -/
def fetchLoop (f : Nat → Option String → PageResult) :
    Nat → Nat → Option String → List RawItem × List (Option String)
  | _, 0, _ => ([], [])
  | k, fuel + 1, after =>
    let arg := if truthyCursor after then after else none
    match f k arg with
    | Except.error _ => ([], [arg])
    | Except.ok (items, after1) =>
      if !truthyCursor after1 || items.isEmpty then (items, [arg])
      else
        let rest := fetchLoop f (k + 1) fuel after1
        (items ++ rest.1, arg :: rest.2)

/-- `fetch_multiple_batches(url, num_batches)` (lines 87-122): drive the
fetcher for up to `numBatches` pages starting with no cursor.  First
component: `all_items`; second: the log of issued calls (their cursor
arguments) — the Python performs these as `requests.get` effects. -/
def fetch_multiple_batches (f : Nat → Option String → PageResult)
    (numBatches : Nat) : List RawItem × List (Option String) :=
  fetchLoop f 0 numBatches none

/-- `process_items(items, seen_items, item_type)` (lines 124-174): skip
items whose id is already seen; otherwise build the content string,
match keywords, append a match record when any keyword matched, and add
the id to the seen set immediately.  Returns
`(matches, new_items_checked, seen_items)`.  The global `KEYWORDS` is
passed explicitly. -/
def process_items (keywords : List String) (itemType : String) :
    List RawItem → List String → List MatchRecord × Nat × List String
  | [], seen => ([], 0, seen)
  | item :: rest, seen =>
    if seen.contains item.id then process_items keywords itemType rest seen
    else
      let title := titleOf itemType item
      let body := bodyOf itemType item
      let content := itemContent title body
      let matched := matchedKeywords keywords content
      let r := process_items keywords itemType rest (pyAdd seen item.id)
      ((if matched.isEmpty then r.1 else
        { keywords := renderKeywords matched
          title := title
          url := "https://reddit.com" ++ item.permalink
          subreddit := item.subreddit
          created := formatTimestamp item.created_utc
          type := itemType } :: r.1),
       r.2.1 + 1, r.2.2)

/-- Observable outcome of one `check_reddit()` cycle: how many external
notification sends were issued, and what was written to the two seen
files. -/
structure CycleOutcome where
  apiCalls : Nat
  savedPosts : List String
  savedComments : List String
  deriving DecidableEq, Repr

/-- `check_reddit()` (lines 176-227): load both seen sets (read errors
propagate), fetch up to 10 pages of posts and of comments, process each
kind against its own seen set, send one email only when the combined
match list is non-empty (a send failure is caught inside `send_email`),
and always save both updated seen sets afterwards. -/
def check_reddit (keywords : List String)
    (fP fC : Nat → Option String → PageResult)
    (filePosts fileComments : Option (Except Unit (List String)))
    (apiOk : Bool) : Except Unit CycleOutcome :=
  match load_seen_items filePosts with
  | Except.error e => Except.error e
  | Except.ok seenPosts =>
    match load_seen_items fileComments with
    | Except.error e => Except.error e
    | Except.ok seenComments =>
      let posts := (fetch_multiple_batches fP 10).1
      let rP := process_items keywords "post" posts seenPosts
      let comments := (fetch_multiple_batches fC 10).1
      let rC := process_items keywords "comment" comments seenComments
      let allMatches := rP.1 ++ rC.1
      let sent := if allMatches.isEmpty then 0 else (send_email allMatches apiOk).2
      Except.ok
        { apiCalls := sent
          savedPosts := save_seen_items rP.2.2
          savedComments := save_seen_items rC.2.2 }

/-- A fixed item used by fetcher stubs in concrete scenarios. -/
def stubItem : RawItem :=
  { id := "stub", title := "t", selftext := "", body := "", link_title := none,
    subreddit := "s", permalink := "/p", created_utc := 0 }

/-- A fetcher stub whose pages are non-empty until page 3 (call index 2)
and empty from page 3 on, always with a usable cursor. -/
def stubEmptyFromPage3 : Nat → Option String → PageResult := fun k _ =>
  Except.ok (if k < 2 then [stubItem] else [], some "cursor")

/-- A page sequence whose first page succeeds and whose second page
raises. -/
def failPage2 : Nat → PageResult := fun i =>
  if i = 0 then Except.ok ([stubItem], some "c0") else Except.error ()

-- ===== helper lemmas =====

theorem contains_iff_mem (l : List String) (x : String) :
    l.contains x = true ↔ x ∈ l := by
  simp [List.contains]

theorem isEmpty_false_of_ne (s : String) (h : s ≠ "") : s.isEmpty = false := by
  cases he : s.isEmpty
  · rfl
  · exact absurd ((String.isEmpty_iff s).1 he) h

theorem listStarts_iff (p : List Char) :
    ∀ l : List Char, listStarts l p = true ↔ ∃ t, l = p ++ t := by
  induction p with
  | nil =>
    intro l
    simp only [listStarts, List.nil_append, true_iff]
    exact ⟨l, rfl⟩
  | cons b p ih =>
    intro l
    cases l with
    | nil =>
      simp [listStarts]
    | cons a l =>
      simp only [listStarts, Bool.and_eq_true, beq_iff_eq, ih, List.cons_append,
        List.cons.injEq]
      constructor
      · rintro ⟨rfl, t, rfl⟩
        exact ⟨t, rfl, rfl⟩
      · rintro ⟨t, rfl, rfl⟩
        exact ⟨rfl, t, rfl⟩

theorem listHas_iff (p : List Char) :
    ∀ l : List Char, listHas l p = true ↔ ∃ s t, l = s ++ p ++ t := by
  intro l
  induction l with
  | nil =>
    cases p with
    | nil => simp only [listHas, List.isEmpty_nil, true_iff]; exact ⟨[], [], rfl⟩
    | cons b p => simp [listHas]
  | cons a l ih =>
    simp only [listHas, Bool.or_eq_true, ih, listStarts_iff]
    constructor
    · rintro (⟨t, h⟩ | ⟨s, t, rfl⟩)
      · exact ⟨[], t, by simpa using h⟩
      · exact ⟨a :: s, t, rfl⟩
    · rintro ⟨s, t, h⟩
      cases s with
      | nil =>
        left
        exact ⟨t, by simpa using h⟩
      | cons a2 s =>
        right
        simp only [List.cons_append, List.cons.injEq] at h
        exact ⟨s, t, h.2⟩

theorem substrIn_iff (needle haystack : String) :
    substrIn needle haystack = true ↔
      ∃ s t, haystack.data = s ++ needle.data ++ t := by
  simpa [substrIn, String.toList] using listHas_iff needle.data haystack.data

theorem mem_matchedKeywords (kws : List String) (c kw : String) :
    kw ∈ matchedKeywords kws c ↔
      kw ∈ kws ∧ ∃ s t, c.data = s ++ (pyLower kw).data ++ t := by
  simp [matchedKeywords, List.mem_filter, substrIn_iff]

-- ===== C5 =====

/-- C5 counterexample: the source searches `f"{title} {body}".lower()`,
which joins title and body with a space; keyword "t b" is therefore
matched for an item with title "t" and body "b", although "t b" is not
a substring of the case-folded concatenation "tb" of title and body.
The claim as stated (substring of the concatenation of title and body)
is thus false on the code. -/
theorem keyword_match_space_counterexample :
    matchedKeywords ["t b"] (itemContent "t" "b") = ["t b"] ∧
    substrIn (pyLower "t b") (specContent "t" "b") = false := by
  constructor
  · decide
  · decide

/-- C5 (amended): the matcher returns exactly the subset of keywords
whose case-folded form occurs as a substring (not word-boundary) of the
case-folded text formed by joining the item's title and body with a
single space; keyword "Launch" matches "we just launched", "LAUNCHED"
and "prelaunches", and an empty keyword list matches no item. -/
theorem keyword_matcher_subset :
    (∀ (kws : List String) (title body kw : String),
        kw ∈ matchedKeywords kws (itemContent title body) ↔
          kw ∈ kws ∧ ∃ s t, (itemContent title body).data = s ++ (pyLower kw).data ++ t) ∧
    matchedKeywords ["Launch"] (itemContent "we just launched" "") = ["Launch"] ∧
    matchedKeywords ["Launch"] (itemContent "LAUNCHED" "") = ["Launch"] ∧
    matchedKeywords ["Launch"] (itemContent "prelaunches" "") = ["Launch"] ∧
    (∀ c : String, matchedKeywords [] c = []) := by
  refine ⟨fun kws title body kw => mem_matchedKeywords kws _ kw, ?_, ?_, ?_, fun c => rfl⟩
  · decide
  · decide
  · decide

-- ===== C7 =====

/-- C7: the rendered keyword string is built by `", ".join` over a
CPython set, whose iteration order depends on the per-process hash
seed; two admissible iteration orders of the same matched-keyword set
render to different strings, so the record is not rendered in a stable,
deterministic order across runs. -/
theorem keyword_render_order_dependent :
    (["a", "b"] : List String).Perm ["b", "a"] ∧
    renderKeywords ["a", "b"] ≠ renderKeywords ["b", "a"] := by
  constructor
  · decide
  · decide

-- ===== C6 =====

/-- C6 counterexample: `load_seen_items` has no exception handler: when
the store file exists but is corrupt or unreadable, the read/parse
error propagates out of `load` instead of yielding the empty set. -/
theorem load_corrupt_counterexample :
    load_seen_items (some (Except.error ())) = Except.error () ∧
    load_seen_items (some (Except.error ())) ≠ Except.ok [] := by
  exact ⟨rfl, fun h => Except.noConfusion h⟩

/-- C6 (amended): `load` returns the empty set when no persisted store
exists, and the stored identifiers when the store parses; but a corrupt
or unreadable store makes `load` re-raise the error rather than being
treated as empty. -/
theorem load_seen_items_behavior :
    load_seen_items none = Except.ok [] ∧
    (∀ l, load_seen_items (some (Except.ok l)) = Except.ok (pySetOf l)) ∧
    (∀ e, load_seen_items (some (Except.error e)) = Except.error e) :=
  ⟨rfl, fun _ => rfl, fun _ => rfl⟩

-- ===== C1 =====

/-- C1 counterexample: insert the 7000 distinct identifiers 0,…,6999 in
that order.  `list(seen_items)` enumerates a CPython set in an
implementation-defined (hash-seed dependent) order, of which the
reversed list is one admissible value (it holds exactly the same
members, as the `Perm` conjunct states).  Saving from that order keeps
identifier 0 — one of the *earliest* added — although the last 5000
added are exactly `(List.range 7000).drop 2000`, which excludes 0.  So
`save` does not drop the oldest-added entries and does not persist
exactly the most-recently-added 5000. -/
theorem save_seen_items_order_counterexample :
    ((List.range 7000).reverse).Perm (List.range 7000) ∧
    (save_seen_items ((List.range 7000).reverse)).length = 5000 ∧
    0 ∈ save_seen_items ((List.range 7000).reverse) ∧
    0 ∉ (List.range 7000).drop 2000 := by
  have hlen : ((List.range 7000).reverse).length = 7000 := by
    simp
  have hsave : save_seen_items ((List.range 7000).reverse) = (List.range 5000).reverse := by
    rw [save_seen_items, if_pos (by rw [hlen]; norm_num)]
    rw [hlen, List.drop_reverse]
    simp [List.take_range]
  refine ⟨List.reverse_perm _, ?_, ?_, ?_⟩
  · rw [hsave]; simp
  · rw [hsave]
    simp [List.mem_reverse, List.mem_range]
  · have hr : List.range 7000 = List.range 2000 ++ (List.range 5000).map (fun x => 2000 + x) := by
      have h := List.range_add 2000 5000
      norm_num at h
      exact h
    have hd : (List.range 7000).drop 2000 = (List.range 5000).map (fun x => 2000 + x) := by
      rw [hr]
      have h2 := List.drop_left (List.range 2000) ((List.range 5000).map (fun x => 2000 + x))
      rwa [List.length_range] at h2
    rw [hd]
    simp

/-- C1 (amended): `save` persists the last at-most-5000 entries of the
set's *iteration order* — a suffix of that order, of size
`min size 5000` (so exactly 5000 once more than 5000 identifiers were
seen, and never more than 5000 after a save); and a save followed by a
load yields a set of at most 5000 identifiers all drawn from the saved
set.  Because a CPython set does not preserve insertion order, the
surviving entries are *not* in general the most recently added ones
(see the counterexample). -/
theorem save_seen_items_truncation :
    (∀ {α : Type} (l : List α),
        (save_seen_items l).length = min l.length 5000 ∧ save_seen_items l <:+ l) ∧
    (∀ s : List String, ∃ t,
        load_seen_items (some (Except.ok (save_seen_items s))) = Except.ok t ∧
        t.length ≤ 5000 ∧ t ⊆ s) := by
  have hmain : ∀ {α : Type} (l : List α),
      (save_seen_items l).length = min l.length 5000 ∧ save_seen_items l <:+ l := by
    intro α l
    constructor
    · rw [save_seen_items]
      by_cases h : l.length > 5000
      · rw [if_pos h, List.length_drop]
        omega
      · rw [if_neg h]
        omega
    · rw [save_seen_items]
      by_cases h : l.length > 5000
      · rw [if_pos h]
        exact List.drop_suffix _ _
      · rw [if_neg h]
  refine ⟨hmain, fun s => ⟨pySetOf (save_seen_items s), rfl, ?_, ?_⟩⟩
  · calc (pySetOf (save_seen_items s)).length
        ≤ (save_seen_items s).length := (List.dedup_sublist _).length_le
      _ = min s.length 5000 := (hmain s).1
      _ ≤ 5000 := min_le_right _ _
  · intro x hx
    have hx2 : x ∈ save_seen_items s := (List.dedup_sublist _).subset hx
    exact ((hmain s).2.subset) hx2

-- ===== C10 =====

/-- C10: for a seen set of at most 5000 identifiers, truncation is the
identity, so a save followed by a load returns a set with exactly the
same members. -/
theorem save_load_roundtrip (s : List String) (h : s.length ≤ 5000) :
    load_seen_items (some (Except.ok (save_seen_items s))) = Except.ok (pySetOf s) ∧
    ∀ x, x ∈ pySetOf s ↔ x ∈ s := by
  have hs : save_seen_items s = s := by
    rw [save_seen_items, if_neg (by omega)]
  rw [hs]
  exact ⟨rfl, fun x => List.mem_dedup⟩

/-- Witness for C10 at a concrete two-element set. -/
theorem save_load_roundtrip_witness :
    load_seen_items (some (Except.ok (save_seen_items ["a", "b"]))) =
      Except.ok (pySetOf ["a", "b"]) ∧
    ∀ x, x ∈ pySetOf ["a", "b"] ↔ x ∈ ["a", "b"] :=
  save_load_roundtrip ["a", "b"] (by norm_num)

-- ===== pagination lemmas =====

theorem fetchLoop_log_length (f : Nat → Option String → PageResult) :
    ∀ (fuel k : Nat) (after : Option String),
      ((fetchLoop f k fuel after).2).length ≤ fuel := by
  intro fuel
  induction fuel with
  | zero => intro k after; simp [fetchLoop]
  | succ n ih =>
    intro k after
    simp only [fetchLoop]
    cases hf : f k (if truthyCursor after then after else none) with
    | error e => simp
    | ok p =>
      obtain ⟨items, after1⟩ := p
      by_cases hstop : (!truthyCursor after1 || items.isEmpty) = true
      · simp [hstop]
      · simp only [Bool.not_eq_true] at hstop
        simp [hstop]
        have := ih (k + 1) after1
        omega

theorem fetchLoop_getD_zero (f : Nat → Option String → PageResult) (k n : Nat)
    (after : Option String) (h : 0 < n) :
    ((fetchLoop f k n after).2).getD 0 none =
      (if truthyCursor after then after else none) := by
  cases n with
  | zero => omega
  | succ m =>
    simp only [fetchLoop]
    cases hf : f k (if truthyCursor after then after else none) with
    | error e => simp
    | ok p =>
      obtain ⟨items, after1⟩ := p
      by_cases hstop : (!truthyCursor after1 || items.isEmpty) = true
      · simp [hstop]
      · simp only [Bool.not_eq_true] at hstop
        simp [hstop]

theorem fetchLoop_thread (f : Nat → Option String → PageResult) :
    ∀ (fuel k : Nat) (after : Option String) (i : Nat),
      i + 1 < ((fetchLoop f k fuel after).2).length →
      ∃ its aft,
        f (k + i) (((fetchLoop f k fuel after).2).getD i none) = Except.ok (its, aft) ∧
        truthyCursor aft = true ∧ its ≠ [] ∧
        ((fetchLoop f k fuel after).2).getD (i + 1) none = aft := by
  intro fuel
  induction fuel with
  | zero => intro k after i h; simp [fetchLoop] at h
  | succ n ih =>
    intro k after i h
    simp only [fetchLoop] at h ⊢
    cases hf : f k (if truthyCursor after then after else none) with
    | error e =>
      rw [hf] at h
      simp at h
    | ok p =>
      obtain ⟨items, after1⟩ := p
      rw [hf] at h
      by_cases hstop : (!truthyCursor after1 || items.isEmpty) = true
      · simp [hstop] at h
      · simp only [Bool.not_eq_true] at hstop
        simp only [hstop, Bool.false_eq_true, if_false, List.length_cons] at h ⊢
        have hcont : truthyCursor after1 = true ∧ items.isEmpty = false := by
          cases ht : truthyCursor after1 <;> cases hi : items.isEmpty <;>
            simp [ht, hi] at hstop ⊢
        cases i with
        | zero =>
          refine ⟨items, after1, ?_, hcont.1, ?_, ?_⟩
          · simpa using hf
          · intro hnil
            rw [hnil] at hcont
            simp at hcont
          · have hlen : 0 < ((fetchLoop f (k + 1) n after1).2).length := by
              simpa using h
            have hn : 0 < n := lt_of_lt_of_le hlen (fetchLoop_log_length f n (k + 1) after1)
            rw [List.getD_cons_succ, fetchLoop_getD_zero f (k + 1) n after1 hn,
              if_pos hcont.1]
        | succ j =>
          have h2 : j + 1 < ((fetchLoop f (k + 1) n after1).2).length := by
            simpa using h
          obtain ⟨its, aft, ha, hb, hc, hd⟩ := ih (k + 1) after1 j h2
          refine ⟨its, aft, ?_, hb, hc, ?_⟩
          · rw [List.getD_cons_succ]
            have hk : k + (j + 1) = k + 1 + j := by omega
            rw [hk]
            exact ha
          · exact hd

-- ===== C3 =====

/-- C3: the collector issues at most `N` fetcher calls (first conjunct,
over the call log the loop would issue as `requests.get` effects) and
issues none when `N = 0` (second conjunct).  Third conjunct: whenever a
call `i + 1` was issued, call `i` succeeded with a non-empty item list
and a truthy next cursor, and call `i + 1` was passed exactly that
cursor — so the cursor returned by each page is threaded into the next
call, and collection stops as soon as a page fails, returns an empty
item list, or returns no usable cursor.  Fourth and fifth conjuncts: a
fetcher stub returning empty item lists from page 3 onward stops the
collector at page 3 (exactly three calls) even with a configured
maximum of 10, and `N = 0` issues zero calls on that stub too. -/
theorem fetch_multiple_batches_pagination :
    (∀ (f : Nat → Option String → PageResult) (N : Nat),
        ((fetch_multiple_batches f N).2).length ≤ N) ∧
    (∀ f : Nat → Option String → PageResult, (fetch_multiple_batches f 0).2 = []) ∧
    (∀ (f : Nat → Option String → PageResult) (N i : Nat),
        i + 1 < ((fetch_multiple_batches f N).2).length →
        ∃ its aft,
          f i (((fetch_multiple_batches f N).2).getD i none) = Except.ok (its, aft) ∧
          truthyCursor aft = true ∧ its ≠ [] ∧
          ((fetch_multiple_batches f N).2).getD (i + 1) none = aft) ∧
    ((fetch_multiple_batches stubEmptyFromPage3 10).2).length = 3 ∧
    (fetch_multiple_batches stubEmptyFromPage3 0).2 = [] := by
  refine ⟨fun f N => fetchLoop_log_length f N 0 none, fun f => rfl, ?_, by decide, rfl⟩
  intro f N i h
  have := fetchLoop_thread f N 0 none i h
  simpa using this

/-- Witness for C3: on the concrete stub, call 1 exists, so call 0
returned a non-empty page with cursor "cursor", which was passed to
call 1. -/
theorem fetch_multiple_batches_pagination_witness :
    ∃ its aft,
      stubEmptyFromPage3 0
          (((fetch_multiple_batches stubEmptyFromPage3 10).2).getD 0 none) =
        Except.ok (its, aft) ∧
      truthyCursor aft = true ∧ its ≠ [] ∧
      ((fetch_multiple_batches stubEmptyFromPage3 10).2).getD 1 none = aft :=
  fetch_multiple_batches_pagination.2.2.1 stubEmptyFromPage3 10 0 (by decide)

-- ===== C4 =====

theorem fetchLoop_ok_until_fail (pages : Nat → PageResult) (its : Nat → List RawItem)
    (cs : Nat → String) (j : Nat)
    (h1 : ∀ i, i < j → pages i = Except.ok (its i, some (cs i)) ∧ its i ≠ [] ∧ cs i ≠ "")
    (h2 : pages j = Except.error ()) :
    ∀ (fuel k : Nat) (after : Option String), k ≤ j → j < k + fuel →
      (fetchLoop (fun i _ => pages i) k fuel after).1 =
        ((List.range' k (j - k)).map its).flatten := by
  intro fuel
  induction fuel with
  | zero => intro k after hk hj; omega
  | succ n ih =>
    intro k after hk hj
    rcases Nat.eq_or_lt_of_le hk with rfl | hlt
    · simp only [fetchLoop, h2]
      simp
    · have hk1 := h1 k hlt
      simp only [fetchLoop, hk1.1]
      have htr : truthyCursor (some (cs k)) = true := by
        simp [truthyCursor, isEmpty_false_of_ne (cs k) hk1.2.2]
      have hit : (its k).isEmpty = false := by
        simp [hk1.2.1]
      simp only [htr, hit, Bool.not_true, Bool.false_or, if_false]
      rw [ih (k + 1) (some (cs k)) (by omega) (by omega)]
      have hjk : j - k = (j - (k + 1)) + 1 := by omega
      rw [hjk, List.range'_succ]
      simp

/-- C4: when the pages before page `j + 1` (call indices `0,…,j-1`)
each succeed with a non-empty item list and a usable cursor, and call
`j` raises, the collector returns exactly the concatenation of the
items of the successful pages, in feed order — the partial results are
kept, and the collector's return type surfaces no error to its caller. -/
theorem fetch_partial_results (pages : Nat → PageResult) (its : Nat → List RawItem)
    (cs : Nat → String) (j N : Nat)
    (h1 : ∀ i, i < j → pages i = Except.ok (its i, some (cs i)) ∧ its i ≠ [] ∧ cs i ≠ "")
    (h2 : pages j = Except.error ()) (h3 : j < N) :
    (fetch_multiple_batches (fun i _ => pages i) N).1 = ((List.range j).map its).flatten := by
  have h := fetchLoop_ok_until_fail pages its cs j h1 h2 N 0 none (Nat.zero_le j) (by omega)
  simpa [fetch_multiple_batches, List.range_eq_range'] using h

/-- Witness for C4: a stub failing on page 2 returns exactly the items
collected from page 1. -/
theorem fetch_partial_results_witness :
    (fetch_multiple_batches (fun i _ => failPage2 i) 10).1 =
      ((List.range 1).map (fun _ => [stubItem])).flatten :=
  fetch_partial_results failPage2 (fun _ => [stubItem]) (fun _ => "c0") 1 10
    (by decide) (by decide) (by decide)

-- ===== seen-set and process_items lemmas =====

theorem pyAdd_mem (s : List String) (x y : String) (h : y ∈ s) : y ∈ pyAdd s x := by
  by_cases hc : s.contains x = true
  · rw [pyAdd, if_pos hc]
    exact h
  · rw [pyAdd, if_neg hc]
    exact List.mem_append_left _ h

theorem pyAdd_self (s : List String) (x : String) : x ∈ pyAdd s x := by
  by_cases hc : s.contains x = true
  · rw [pyAdd, if_pos hc]
    exact (contains_iff_mem s x).1 hc
  · rw [pyAdd, if_neg hc]
    exact List.mem_append_right _ (by simp)

theorem process_items_seen_mono (kws : List String) (ty : String) :
    ∀ (l : List RawItem) (seen : List String) (x : String),
      x ∈ seen → x ∈ (process_items kws ty l seen).2.2 := by
  intro l
  induction l with
  | nil => intro seen x hx; simpa [process_items] using hx
  | cons a l ih =>
    intro seen x hx
    by_cases h : seen.contains a.id = true
    · simp only [process_items, h, if_true]
      exact ih seen x hx
    · simp only [Bool.not_eq_true] at h
      simp only [process_items, h, Bool.false_eq_true, if_false]
      exact ih (pyAdd seen a.id) x (pyAdd_mem seen a.id x hx)

theorem process_items_id_mem (kws : List String) (ty : String) :
    ∀ (l : List RawItem) (seen : List String) (x : RawItem),
      x ∈ l → x.id ∈ (process_items kws ty l seen).2.2 := by
  intro l
  induction l with
  | nil => intro seen x hx; simp at hx
  | cons a l ih =>
    intro seen x hx
    rcases List.mem_cons.1 hx with rfl | hx2
    · by_cases h : seen.contains x.id = true
      · simp only [process_items, h, if_true]
        exact process_items_seen_mono kws ty l seen x.id ((contains_iff_mem _ _).1 h)
      · simp only [Bool.not_eq_true] at h
        simp only [process_items, h, Bool.false_eq_true, if_false]
        exact process_items_seen_mono kws ty l _ x.id (pyAdd_self seen x.id)
    · by_cases h : seen.contains a.id = true
      · simp only [process_items, h, if_true]
        exact ih seen x hx2
      · simp only [Bool.not_eq_true] at h
        simp only [process_items, h, Bool.false_eq_true, if_false]
        exact ih (pyAdd seen a.id) x hx2

theorem process_items_skip (kws : List String) (ty : String) (a : RawItem)
    (l : List RawItem) (seen : List String) (h : seen.contains a.id = true) :
    process_items kws ty (a :: l) seen = process_items kws ty l seen := by
  simp only [process_items]
  rw [if_pos h]

theorem process_items_skip_mid (kws : List String) (ty : String) (y : RawItem) :
    ∀ (l2 l3 : List RawItem) (seen : List String), y.id ∈ seen →
      process_items kws ty (l2 ++ (y :: l3)) seen =
        process_items kws ty (l2 ++ l3) seen := by
  intro l2
  induction l2 with
  | nil =>
    intro l3 seen hy
    simpa using process_items_skip kws ty y l3 seen ((contains_iff_mem _ _).2 hy)
  | cons a l2 ih =>
    intro l3 seen hy
    simp only [List.cons_append]
    by_cases h : seen.contains a.id = true
    · rw [process_items_skip kws ty a _ seen h, process_items_skip kws ty a _ seen h]
      exact ih l3 seen hy
    · simp only [Bool.not_eq_true] at h
      have hrec := ih l3 (pyAdd seen a.id) (pyAdd_mem seen a.id y.id hy)
      simp only [process_items, h, Bool.false_eq_true, if_false, hrec]

-- ===== C9 =====

/-- C9: within a single `process_items` invocation, a later occurrence
of an identifier already processed earlier in the same batch is inert:
it yields no match record, is not counted as a new item, and changes no
state, because the identifier is added to the in-memory seen set
immediately after its first occurrence is processed, with no
save/load in between.  Removing the duplicate occurrence leaves the
invocation's entire result (matches, count, final seen set) unchanged. -/
theorem process_items_duplicate_inert (kws : List String) (ty : String)
    (x y : RawItem) (hxy : y.id = x.id) :
    ∀ (l1 l2 l3 : List RawItem) (seen : List String),
      process_items kws ty (l1 ++ (x :: (l2 ++ (y :: l3)))) seen =
        process_items kws ty (l1 ++ (x :: (l2 ++ l3))) seen := by
  intro l1
  induction l1 with
  | nil =>
    intro l2 l3 seen
    simp only [List.nil_append]
    by_cases h : seen.contains x.id = true
    · rw [process_items_skip kws ty x _ seen h, process_items_skip kws ty x _ seen h]
      exact process_items_skip_mid kws ty y l2 l3 seen
        (hxy ▸ (contains_iff_mem _ _).1 h)
    · simp only [Bool.not_eq_true] at h
      have hmid := process_items_skip_mid kws ty y l2 l3 (pyAdd seen x.id)
        (by rw [hxy]; exact pyAdd_self seen x.id)
      simp only [process_items, h, Bool.false_eq_true, if_false, hmid]
  | cons a l1 ih =>
    intro l2 l3 seen
    simp only [List.cons_append]
    by_cases h : seen.contains a.id = true
    · rw [process_items_skip kws ty a _ seen h, process_items_skip kws ty a _ seen h]
      exact ih l2 l3 seen
    · simp only [Bool.not_eq_true] at h
      have hrec := ih l2 l3 (pyAdd seen a.id)
      simp only [process_items, h, Bool.false_eq_true, if_false, hrec]

/-- Two distinct raw items carrying the same identifier "i". -/
def dupItemA : RawItem :=
  { id := "i", title := "k here", selftext := "", body := "", link_title := none,
    subreddit := "s", permalink := "/a", created_utc := 0 }

/-- See `dupItemA`: same identifier, different content. -/
def dupItemB : RawItem :=
  { id := "i", title := "k again", selftext := "", body := "", link_title := none,
    subreddit := "s", permalink := "/b", created_utc := 5 }

/-- Witness for C9: processing `[dupItemA, dupItemB]` (same id twice)
equals processing `[dupItemA]` alone. -/
theorem process_items_duplicate_inert_witness :
    dupItemB.id = dupItemA.id ∧
    process_items ["k"] "post" [dupItemA, dupItemB] [] =
      process_items ["k"] "post" [dupItemA] [] :=
  ⟨rfl, process_items_duplicate_inert ["k"] "post" dupItemA dupItemB rfl [] [] [] []⟩

-- ===== C8 =====

theorem digit_lt_ten_isDigit : ∀ d : Nat, d < 10 → (Nat.digitChar d).isDigit = true := by
  decide

theorem digitChar_mod_isDigit (x : Nat) : (Nat.digitChar (x % 10)).isDigit = true :=
  digit_lt_ten_isDigit (x % 10) (Nat.mod_lt x (by norm_num))

theorem formatTimestamp_data (t : Nat) :
    (formatTimestamp t).data =
      [Nat.digitChar ((civilFromDays (t / 86400)).1 / 1000 % 10),
       Nat.digitChar ((civilFromDays (t / 86400)).1 / 100 % 10),
       Nat.digitChar ((civilFromDays (t / 86400)).1 / 10 % 10),
       Nat.digitChar ((civilFromDays (t / 86400)).1 % 10), '-',
       Nat.digitChar ((civilFromDays (t / 86400)).2.1 / 10 % 10),
       Nat.digitChar ((civilFromDays (t / 86400)).2.1 % 10), '-',
       Nat.digitChar ((civilFromDays (t / 86400)).2.2 / 10 % 10),
       Nat.digitChar ((civilFromDays (t / 86400)).2.2 % 10), ' ',
       Nat.digitChar (t % 86400 / 3600 / 10 % 10),
       Nat.digitChar (t % 86400 / 3600 % 10), ':',
       Nat.digitChar (t % 86400 % 3600 / 60 / 10 % 10),
       Nat.digitChar (t % 86400 % 3600 / 60 % 10), ':',
       Nat.digitChar (t % 86400 % 60 / 10 % 10),
       Nat.digitChar (t % 86400 % 60 % 10)] := rfl

theorem patternOk_formatTimestamp (t : Nat) : patternOk (formatTimestamp t) = true := by
  unfold patternOk
  rw [formatTimestamp_data]
  simp [digitChar_mod_isDigit]

/-- C8: for an unseen raw item at least one keyword of which matches,
`process_items` emits exactly one record whose URL is the fixed site
base `https://reddit.com` joined with the item's relative permalink and
whose creation time is the formatted epoch timestamp; for comment-kind
items with no `link_title` the title is synthesized from the first 50
characters of the body with an ellipsis suffix (second conjunct); and
the formatted creation time always has the shape
`YYYY-MM-DD HH:MM:SS` for timestamps in `datetime`'s representable
range (third conjunct). -/
theorem match_record_builder (kws : List String) (ty : String) (seen : List String)
    (i : RawItem) (hseen : seen.contains i.id = false)
    (hm : matchedKeywords kws (itemContent (titleOf ty i) (bodyOf ty i)) ≠ []) :
    process_items kws ty [i] seen =
      ([{ keywords := renderKeywords (matchedKeywords kws (itemContent (titleOf ty i) (bodyOf ty i)))
          title := titleOf ty i
          url := "https://reddit.com" ++ i.permalink
          subreddit := i.subreddit
          created := formatTimestamp i.created_utc
          type := ty }], 1, seen ++ [i.id]) ∧
    (ty = "comment" → i.link_title = none →
      titleOf ty i = "Comment: " ++ (bodyOf ty i).take 50 ++ "...") ∧
    (∀ t : Nat, t < 253402300800 → patternOk (formatTimestamp t) = true) := by
  refine ⟨?_, ?_, fun t _ => patternOk_formatTimestamp t⟩
  · have hs : ¬seen.contains i.id = true := by
      rw [hseen]
      exact Bool.false_ne_true
    have hm2 : ¬(matchedKeywords kws (itemContent (titleOf ty i) (bodyOf ty i))).isEmpty = true := by
      simpa using hm
    simp only [process_items]
    rw [if_neg hs, if_neg hm2, pyAdd, if_neg hs]
  · intro h1 h2
    rw [titleOf, if_pos h1, h2, Option.getD_none]

/-- A comment item with no `link_title` whose body mentions "hiring". -/
def commentItem : RawItem :=
  { id := "c1", title := "", selftext := "", body := "hiring now",
    link_title := none, subreddit := "jobs", permalink := "/r/jobs/c1",
    created_utc := 1700000000 }

set_option maxRecDepth 100000 in
/-- Witness for C8 on a concrete comment item. -/
theorem match_record_builder_witness :
    ([] : List String).contains commentItem.id = false ∧
    matchedKeywords ["hiring"]
        (itemContent (titleOf "comment" commentItem) (bodyOf "comment" commentItem)) ≠ [] ∧
    (process_items ["hiring"] "comment" [commentItem] [] =
        ([{ keywords := renderKeywords (matchedKeywords ["hiring"]
              (itemContent (titleOf "comment" commentItem) (bodyOf "comment" commentItem)))
            title := titleOf "comment" commentItem
            url := "https://reddit.com" ++ commentItem.permalink
            subreddit := commentItem.subreddit
            created := formatTimestamp commentItem.created_utc
            type := "comment" }], 1, [] ++ [commentItem.id]) ∧
      ("comment" = "comment" → commentItem.link_title = none →
        titleOf "comment" commentItem =
          "Comment: " ++ (bodyOf "comment" commentItem).take 50 ++ "...") ∧
      (∀ t : Nat, t < 253402300800 → patternOk (formatTimestamp t) = true)) :=
  ⟨rfl, by decide,
    match_record_builder ["hiring"] "comment" [] commentItem rfl (by decide)⟩

-- ===== C2 =====

/-- C2: on a cycle whose two seen files load successfully, the outcome
is exactly: one notification dispatch when the combined match list is
non-empty and zero dispatches when it is empty, and the two seen sets —
to which every processed item's identifier has been added (second and
third conjuncts) — are saved.  The right-hand side does not mention
`apiOk`, so a caught dispatch failure changes nothing about what is
persisted. -/
theorem check_reddit_dispatch_once (kws : List String)
    (fP fC : Nat → Option String → PageResult) (lP lC : List String) (apiOk : Bool) :
    check_reddit kws fP fC (some (Except.ok lP)) (some (Except.ok lC)) apiOk =
      Except.ok
        { apiCalls :=
            if ((process_items kws "post" (fetch_multiple_batches fP 10).1 (pySetOf lP)).1 ++
                (process_items kws "comment" (fetch_multiple_batches fC 10).1 (pySetOf lC)).1).isEmpty
            then 0 else 1
          savedPosts :=
            save_seen_items
              (process_items kws "post" (fetch_multiple_batches fP 10).1 (pySetOf lP)).2.2
          savedComments :=
            save_seen_items
              (process_items kws "comment" (fetch_multiple_batches fC 10).1 (pySetOf lC)).2.2 } ∧
    (∀ x : RawItem, x ∈ (fetch_multiple_batches fP 10).1 →
        x.id ∈ (process_items kws "post" (fetch_multiple_batches fP 10).1 (pySetOf lP)).2.2) ∧
    (∀ x : RawItem, x ∈ (fetch_multiple_batches fC 10).1 →
        x.id ∈ (process_items kws "comment" (fetch_multiple_batches fC 10).1 (pySetOf lC)).2.2) := by
  refine ⟨?_, fun x hx => process_items_id_mem kws "post" _ _ x hx,
    fun x hx => process_items_id_mem kws "comment" _ _ x hx⟩
  simp only [check_reddit, load_seen_items]
  by_cases hM : ((process_items kws "post" (fetch_multiple_batches fP 10).1 (pySetOf lP)).1 ++
      (process_items kws "comment" (fetch_multiple_batches fC 10).1 (pySetOf lC)).1).isEmpty = true
  · simp [send_email, hM]
  · simp only [Bool.not_eq_true] at hM
    simp [send_email, hM]

/-- A fetcher stub yielding a single one-item page. -/
def oneItemFetch : Nat → Option String → PageResult := fun _ _ =>
  Except.ok ([stubItem], none)

/-- Witness for C2: the fetched stub item's id lands in the post seen
set that the cycle persists. -/
theorem check_reddit_dispatch_once_witness :
    stubItem.id ∈ (process_items ([] : List String) "post"
        (fetch_multiple_batches oneItemFetch 10).1 (pySetOf [])).2.2 :=
  (check_reddit_dispatch_once [] oneItemFetch oneItemFetch [] [] true).2.1 stubItem
    (by decide)

/-- Witness for the amended C1 statement at a concrete one-element set. -/
theorem save_seen_items_truncation_witness :
    (save_seen_items (["x"] : List String)).length = min (["x"] : List String).length 5000 ∧
    ∃ t, load_seen_items (some (Except.ok (save_seen_items ["x"]))) = Except.ok t ∧
      t.length ≤ 5000 ∧ t ⊆ ["x"] :=
  ⟨(save_seen_items_truncation.1 ["x"]).1, save_seen_items_truncation.2 ["x"]⟩

/-- Witness for the amended C5 statement at a concrete keyword and text. -/
theorem keyword_matcher_subset_witness :
    "Launch" ∈ matchedKeywords ["Launch"] (itemContent "we just launched" "") ↔
      "Launch" ∈ (["Launch"] : List String) ∧
        ∃ s t, (itemContent "we just launched" "").data = s ++ (pyLower "Launch").data ++ t :=
  keyword_matcher_subset.1 ["Launch"] "we just launched" "" "Launch"
